import Mathlib

/-!
Verification of the order placement and fulfillment workflow of the
genzzone e-commerce backend (Django).  The definitions below are a shallow
embedding, translated from the repository sources:

* `products/models.py`   — `Product` and its `current_price` property
* `orders/models.py`     — `Cart`/`CartItem`/`Order`/`OrderItem`
* `orders/views.py`      — `AddToCartView`, `CreateOrderView`, `CheckoutFromCartView`
* `orders/admin.py`      — `OrderAdmin.send_to_steadfast`, `OrderAdmin.confirm_order`
* `orders/steadfast_service.py` — `normalize_phone_number`, `SteadfastService.create_order`
* `orders/serializers.py` — the declared fields of `SimpleOrderSerializer`

Money is modelled in integer cents (the source uses `Decimal` with two
places).  Database rows are lists of records; the external courier HTTP
call is a parameter (`NetOutcome`) supplied by the environment.
-/

/-- Embedding of `products.models.Product` (the fields the order workflow
reads).  `stock` is an `Int` because the views decrement it with an
unconditional relative `UPDATE` (`F('stock') - quantity`); `offer_price`
is `Option` because the column is nullable. Prices are in cents. -/
structure Product where
  id : Nat
  name : String
  regular_price : Nat
  offer_price : Option Nat
  stock : Int
  is_active : Bool
deriving DecidableEq, Repr

/-- Embedding of `Product.current_price`:
`return self.offer_price if self.offer_price else self.regular_price`.
Python truthiness: `None` and `Decimal 0` are falsy, so the offer price is
used exactly when it is non-null and nonzero — there is no comparison
with `regular_price` in the source. -/
def Product.current_price (p : Product) : Nat :=
  match p.offer_price with
  | some op => if op = 0 then p.regular_price else op
  | none => p.regular_price

/-- Embedding of `orders.models.CartItem` (the fields the workflow reads:
the product foreign key and the quantity). -/
structure CartItem where
  product_id : Nat
  quantity : Nat
deriving DecidableEq, Repr

/-- `Product.objects.get(id=product_id, is_active=True)` — returns the
active product with the given id, if any. -/
def findActiveProduct (ps : List Product) (pid : Nat) : Option Product :=
  ps.find? (fun p => p.id == pid && p.is_active)

/-- `Product` lookup through a foreign key (the referenced row, active or
not), as in `cart_item.product` / `order_item.product`. -/
def findProduct (ps : List Product) (pid : Nat) : Option Product :=
  ps.find? (fun p => p.id == pid)

/-- Failure taxonomy of the cart endpoints.  `insufficientStock` covers
both 400 responses of `AddToCartView` (`'Product is out of stock'` and
`'Only N items available in stock'`): both report a stock conflict and
carry the available count. -/
inductive CartError where
  | notFound
  | insufficientStock (available : Int)
deriving DecidableEq, Repr

/-- Embedding of `AddToCartView.post` (`orders/views.py` lines 167–231),
after serializer validation (`AddToCartSerializer` enforces
`quantity >= 1`).  The source's `get_or_create` followed by a delete of a
just-created over-quantity row nets to "no cart change, error", which is
how the `.error` branch models it.  The product list is returned
unchanged on success: the view performs no stock write. -/
def addToCartView (ps : List Product) (cart : List CartItem) (pid qty : Nat) :
    Except CartError (List Product × List CartItem) :=
  match findActiveProduct ps pid with
  | none => .error .notFound
  | some product =>
    if product.stock ≤ 0 then .error (.insufficientStock product.stock)
    else
      match cart.find? (fun it => it.product_id == pid) with
      | some item =>
        if (item.quantity + qty : Int) > product.stock then
          .error (.insufficientStock product.stock)
        else
          .ok (ps, cart.map (fun it =>
            if it.product_id == pid then { it with quantity := item.quantity + qty } else it))
      | none =>
        if (qty : Int) > product.stock then .error (.insufficientStock product.stock)
        else .ok (ps, cart ++ [⟨pid, qty⟩])

/-- Step two of `normalize_phone_number`
(`orders/steadfast_service.py` lines 23–25): remove the Bangladesh
country code — but only when the digit string is exactly 13 digits
(`digits_only.startswith('880') and len(digits_only) == 13`). -/
def stripStep (digits_only : List Char) : List Char :=
  if digits_only.take 3 = ['8', '8', '0'] ∧ digits_only.length = 13 then
    digits_only.drop 3
  else digits_only

/-- Step three of `normalize_phone_number` (lines 27–29): prepend a zero —
but only to a 10-digit string not already starting with `0`
(`len(digits_only) == 10 and not digits_only.startswith('0')`). -/
def padStep (s : List Char) : List Char :=
  if s.length = 10 ∧ s.take 1 ≠ ['0'] then '0' :: s
  else s

/-- Embedding of `orders.steadfast_service.normalize_phone_number`.
The Python function returns the argument unchanged when it is empty
(`if not phone`), otherwise keeps only digit characters
(`filter(str.isdigit, phone)`) and applies `stripStep` then `padStep`. -/
def normalize_phone_number (phone : String) : String :=
  if phone = "" then phone
  else String.mk (padStep (stripStep (phone.data.filter Char.isDigit)))

/-- Python `str.strip()`: remove leading and trailing whitespace. -/
def pyStrip (s : String) : String :=
  String.mk (((s.data.dropWhile Char.isWhitespace).reverse.dropWhile Char.isWhitespace).reverse)

/-- The validity test applied by `SteadfastService.create_order` to the
normalized recipient phone:
`not recipient_phone or not recipient_phone.isdigit() or len(recipient_phone) != 11`
rejects; this predicate is the accepted case. -/
def validSteadfastPhone (s : String) : Bool :=
  s ≠ "" && s.data.all Char.isDigit && s.length == 11

/-- Steadfast credentials as read from Django settings in
`SteadfastService.__init__`; `getattr(settings, ..., None)` yields `None`
or a string, and `_is_enabled` is `bool(self.api_key and self.secret_key)`
— truthy means non-null and nonempty. -/
structure SFConfig where
  api_key : Option String
  secret_key : Option String
deriving DecidableEq, Repr

/-- Embedding of `SteadfastService._is_enabled`. -/
def SFConfig.is_enabled (c : SFConfig) : Bool :=
  (match c.api_key with | some k => k ≠ "" | none => false) &&
  (match c.secret_key with | some k => k ≠ "" | none => false)

/-- The `consignment` object of a Steadfast create-order response body;
every field is read with `.get(...)`, hence `Option`. -/
structure Consignment where
  consignment_id : Option Int
  tracking_code : Option String
  status : Option String
deriving DecidableEq, Repr

/-- The JSON `status` field of a response dictionary: the provider sends a
number, the service's own synthetic dictionaries carry the strings
`'disabled'` and `'error'`. -/
inductive StatusField where
  | num (n : Int)
  | str (s : String)
deriving DecidableEq, Repr

/-- A Steadfast create-order response dictionary as the call sites read it
(`.get('status')`, `.get('consignment')`, `.get('message', ...)`). -/
structure SFResponse where
  status : Option StatusField
  consignment : Option Consignment
  message : Option String
deriving DecidableEq, Repr

/-- The synthetic response returned when the integration is not
configured. -/
def disabledResponse : SFResponse :=
  { status := some (.str "disabled")
    consignment := none
    message := some "Steadfast integration is not configured" }

/-- The synthetic response returned when the normalized phone number is
not 11 digits. -/
def badPhoneResponse : SFResponse :=
  { status := some (.str "error")
    consignment := none
    message := some "Phone number must be 11 digits" }

/-- The synthetic response produced when `requests.post` raises (network
error, timeout, or a non-2xx HTTP status via `raise_for_status`). -/
def requestFailedResponse (msg : String) : SFResponse :=
  { status := some (.str "error")
    consignment := none
    message := some ("Failed to create order in Steadfast: " ++ msg) }

/-- Outcome of the actual HTTP exchange with the provider, supplied by the
environment: either a 2xx reply whose JSON body is returned verbatim, or a
raised `RequestException`. -/
inductive NetOutcome where
  | httpOk (body : SFResponse)
  | httpErr (msg : String)
deriving DecidableEq, Repr

/-- The payload assembled by `SteadfastService.create_order` before the
HTTP call (`cod_amount` in cents; the source converts to `float`). -/
structure SFPayload where
  invoice : String
  recipient_name : String
  recipient_phone : String
  recipient_address : String
  cod_amount : Nat
  recipient_email : Option String
  note : Option String
  item_description : Option String
  total_lot : Option Nat
  delivery_type : Option Nat
deriving DecidableEq, Repr

/-- Embedding of `SteadfastService.create_order`
(`orders/steadfast_service.py` lines 58–156).  Returns the response
dictionary together with a flag recording whether the HTTP request was
performed.  Disabled configuration and an invalid normalized phone number
short-circuit before any network activity; a raised `RequestException`
(after an attempted request) is converted to an error dictionary, never
propagated. -/
def createOrderService (cfg : SFConfig) (payload : SFPayload) (net : NetOutcome) :
    SFResponse × Bool :=
  if ¬ cfg.is_enabled then (disabledResponse, false)
  else
    let phone := normalize_phone_number (pyStrip payload.recipient_phone)
    if ¬ validSteadfastPhone phone then (badPhoneResponse, false)
    else
      match net with
      | .httpOk body => (body, true)
      | .httpErr msg => (requestFailedResponse msg, true)

/-- `Order.STATUS_CHOICES` from `orders/models.py`. -/
inductive OrderStatus where
  | pending
  | sent
  | processing
  | shipped
  | delivered
  | cancelled
deriving DecidableEq, Repr

/-- Embedding of `orders.models.OrderItem`: the snapshot row created at
order time.  `price` is the stored column (cents), written once at
creation. -/
structure OrderItem where
  product_id : Nat
  quantity : Nat
  price : Nat
  product_size : String
deriving DecidableEq, Repr

/-- `OrderItem.get_subtotal`: `self.price * self.quantity` — reads the
stored price column, not the live product. -/
def OrderItem.get_subtotal (it : OrderItem) : Nat :=
  it.price * it.quantity

/-- Embedding of `orders.models.Order` (the fields the workflow writes).
The three Steadfast fulfillment fields mirror the columns: a nullable
integer and two blank-default strings. -/
structure Order where
  id : Nat
  session_key : String
  total_amount : Nat
  status : OrderStatus
  shipping_address : String
  shipping_state : String
  customer_name : String
  customer_email : String
  customer_phone : String
  notes : String
  steadfast_consignment_id : Option Int
  steadfast_tracking_code : String
  steadfast_status : String
  items : List OrderItem
deriving DecidableEq, Repr

/-- Python truthiness of the nullable integer column
`order.steadfast_consignment_id`: `None` and `0` are falsy. -/
def consignmentTruthy (c : Option Int) : Bool :=
  match c with
  | some n => n ≠ 0
  | none => false

/-- The database state the order workflow touches: the product table and
the order table (order items are embedded in their owning order, matching
the cascade ownership). -/
structure Store where
  products : List Product
  orders : List Order
deriving DecidableEq, Repr

/-- One `UPDATE products SET stock = F('stock') - quantity WHERE id = pid`:
an unconditional relative decrement of the matching row. -/
def decrementStock (ps : List Product) (pid : Nat) (qty : Nat) : List Product :=
  ps.map (fun p => if p.id = pid then { p with stock := p.stock - qty } else p)

/-- `order.save()` after mutating fetched fields: replace the row with the
same primary key. -/
def saveOrder (orders : List Order) (o : Order) : List Order :=
  orders.map (fun q => if q.id = o.id then o else q)

/-- An admin edit of a product's prices
(`regular_price`/`offer_price` are editable model fields; nothing else
changes and no order row is touched). -/
def updateProductPrice (st : Store) (pid : Nat) (reg : Nat) (off : Option Nat) : Store :=
  { st with products := st.products.map (fun p =>
      if p.id = pid then { p with regular_price := reg, offer_price := off } else p) }

/-- The cart-item subtotal `product.current_price * quantity`
(`CartItem.get_subtotal`); the product row is reached through the foreign
key, so an absent row (impossible under FK integrity) contributes 0. -/
def cartItemSubtotal (ps : List Product) (it : CartItem) : Nat :=
  match findProduct ps it.product_id with
  | some p => p.current_price * it.quantity
  | none => 0

/-- `Cart.get_total`: the sum of the item subtotals, recomputed from the
live products. -/
def cartTotal (ps : List Product) (cart : List CartItem) : Nat :=
  (cart.map (cartItemSubtotal ps)).sum

/-- The customer/shipping fields validated for the checkout endpoint
(`CartCheckoutSerializer` is referenced by `CheckoutFromCartView` but its
definition is not part of the sources; the record holds exactly the keys
the view reads: `customer_name`, `district`, `address`, `phone_number`,
`product_size`). -/
structure CheckoutInfo where
  customer_name : String
  district : String
  address : String
  phone_number : String
  product_size : String
deriving DecidableEq, Repr

/-- Failure taxonomy of `CheckoutFromCartView.post` before the commit. -/
inductive CheckoutError where
  | emptyCart
  | insufficientStock (name : String) (available : Int)
  | missingProduct
deriving DecidableEq, Repr

/-- The stock-validation loop of `CheckoutFromCartView.post`
(lines 353–359): the first cart line with `quantity > product.stock`
aborts the request.  A dangling product reference (impossible under FK
integrity) is reported as `missingProduct`.  Activity of the product is
not consulted. -/
def findInvalidLine (ps : List Product) : List CartItem → Option CheckoutError
  | [] => none
  | it :: rest =>
    match findProduct ps it.product_id with
    | none => some .missingProduct
    | some p =>
      if (it.quantity : Int) > p.stock then some (.insufficientStock p.name p.stock)
      else findInvalidLine ps rest

/-- The `OrderItem` rows created inside the atomic block of
`CheckoutFromCartView.post`: one per cart line, with `price` frozen from
`product.current_price` and the request's single `product_size`. -/
def orderItemsOfCart (ps : List Product) (cart : List CartItem) (size : String) :
    List OrderItem :=
  cart.map (fun it =>
    { product_id := it.product_id
      quantity := it.quantity
      price := match findProduct ps it.product_id with
               | some p => p.current_price
               | none => 0
      product_size := size })

/-- The transactional part of `CheckoutFromCartView.post`
(lines 345–397): reject an empty cart, validate every line against
current stock, then atomically create the `Order` row with its
`OrderItem` rows and decrement each product's stock by the purchased
quantity.  `oid` is the fresh primary key the database assigns. -/
def checkoutCommit (st : Store) (cart : List CartItem) (info : CheckoutInfo)
    (session : String) (oid : Nat) : Except CheckoutError (Store × Order) :=
  if cart.isEmpty then .error .emptyCart
  else
    match findInvalidLine st.products cart with
    | some e => .error e
    | none =>
      let order : Order :=
        { id := oid
          session_key := session
          total_amount := cartTotal st.products cart
          status := .pending
          shipping_address := info.address
          shipping_state := info.district
          customer_name := info.customer_name
          customer_phone := info.phone_number
          customer_email := ""
          notes := ""
          steadfast_consignment_id := none
          steadfast_tracking_code := ""
          steadfast_status := ""
          items := orderItemsOfCart st.products cart info.product_size }
      let products2 := cart.foldl (fun ps it => decrementStock ps it.product_id it.quantity) st.products
      .ok ({ products := products2, orders := st.orders ++ [order] }, order)

/-- The success test every call site applies to the courier response:
`steadfast_response.get('status') == 200 and steadfast_response.get('consignment')`. -/
def respSuccess (r : SFResponse) : Bool :=
  (r.status == some (.num 200)) && r.consignment.isSome

/-- One line of the courier item description:
`f"{quantity}x {name}"` plus `" (Size: {size})"` when a size is present. -/
def itemDescLine (qty : Nat) (name : String) (size : String) : String :=
  toString qty ++ "x " ++ name ++
    (if size ≠ "" then " (Size: " ++ size ++ ")" else "")

/-- `order_item.product.name` through the foreign key (blank when the row
is dangling, which FK integrity prevents). -/
def productName (ps : List Product) (pid : Nat) : String :=
  match findProduct ps pid with
  | some p => p.name
  | none => ""

/-- The item description `CheckoutFromCartView.post` builds from the cart
lines (lines 392–397), all lines sharing the request's `product_size`. -/
def checkoutItemDescription (ps : List Product) (cart : List CartItem) (size : String) :
    String :=
  String.intercalate "; "
    (cart.map (fun it => itemDescLine it.quantity (productName ps it.product_id) size))

/-- The item description the admin actions build from the order's items
(`orders/admin.py` lines 249–260), each line with its own stored size. -/
def adminItemDescription (ps : List Product) (items : List OrderItem) : String :=
  String.intercalate "; "
    (items.map (fun it => itemDescLine it.quantity (productName ps it.product_id) it.product_size))

/-- Writing the three fulfillment fields from a consignment object, as all
call sites do: `consignment.get('consignment_id')`,
`consignment.get('tracking_code', '')`, `consignment.get('status', '')`. -/
def applyConsignment (o : Order) (c : Consignment) : Order :=
  { o with
    steadfast_consignment_id := c.consignment_id
    steadfast_tracking_code := c.tracking_code.getD ""
    steadfast_status := c.status.getD "" }

/-- The Steadfast payload `CheckoutFromCartView.post` assembles
(lines 399–419) from the request data and the freshly committed order. -/
def checkoutPayload (ps : List Product) (cart : List CartItem) (info : CheckoutInfo)
    (order : Order) : SFPayload :=
  { invoice := "ORD-" ++ toString order.id
    recipient_name := info.customer_name
    recipient_phone := info.phone_number
    recipient_address := info.address
    cod_amount := order.total_amount
    recipient_email := if order.customer_email ≠ "" then some order.customer_email else none
    note := if order.notes ≠ "" then some order.notes else none
    item_description := some (checkoutItemDescription ps cart info.product_size)
    total_lot := some ((cart.map (fun it => it.quantity)).sum)
    delivery_type := some 0 }

/-- Embedding of `CheckoutFromCartView.post` (`orders/views.py`
lines 316–438): the transactional commit, then the best-effort Steadfast
call, then — only on courier success — the write-back of the three
fulfillment fields via `order.save()`.  The view never changes
`order.status` after creation; on courier failure it only logs. -/
def checkoutFromCartView (cfg : SFConfig) (st : Store) (cart : List CartItem)
    (info : CheckoutInfo) (session : String) (oid : Nat) (net : NetOutcome) :
    Except CheckoutError (Store × Order) :=
  match checkoutCommit st cart info session oid with
  | .error e => .error e
  | .ok (st2, order) =>
    let rc := createOrderService cfg (checkoutPayload st.products cart info order) net
    match rc.1.consignment with
    | some c =>
      if rc.1.status == some (.num 200) then
        let order2 := applyConsignment order c
        .ok ({ st2 with orders := saveOrder st2.orders order2 }, order2)
      else .ok (st2, order)
    | none => .ok (st2, order)

/-- Result taxonomy of the admin dispatch actions. -/
inductive AdminDispatchResult where
  | alreadyDispatched
  | cancelledRefused
  | noItems
  | success
  | failed (msg : String)
deriving DecidableEq, Repr

/-- The Steadfast payload the admin actions assemble from a stored order
(`orders/admin.py` lines 140–157 and 262–279). -/
def adminPayload (ps : List Product) (order : Order) : SFPayload :=
  { invoice := "ORD-" ++ toString order.id
    recipient_name := order.customer_name
    recipient_phone := order.customer_phone
    recipient_address := order.shipping_address
    cod_amount := order.total_amount
    recipient_email := if order.customer_email ≠ "" then some order.customer_email else none
    note := none
    item_description := some (adminItemDescription ps order.items)
    total_lot := some ((order.items.map (fun it => it.quantity)).sum)
    delivery_type := some 0 }

/-- The courier call and write-back shared by the two admin actions
(`orders/admin.py` lines 127–177 and 249–299): build the payload from the
order, call Steadfast, and on success write the three fulfillment fields
and `status = 'sent'` in one `order.save()`; on failure leave the order
untouched and report the provider's message.  The third component records
whether the HTTP request was performed. -/
def adminDispatchCall (cfg : SFConfig) (ps : List Product) (order : Order)
    (net : NetOutcome) : Order × AdminDispatchResult × Bool :=
  let rc := createOrderService cfg (adminPayload ps order) net
  match rc.1.consignment with
  | some c =>
    if rc.1.status == some (.num 200) then
      ({ applyConsignment order c with status := .sent }, .success, rc.2)
    else (order, .failed (rc.1.message.getD "Unknown error"), rc.2)
  | none => (order, .failed (rc.1.message.getD "Unknown error"), rc.2)

/-- Embedding of `OrderAdmin.send_to_steadfast` for one selected order
(`orders/admin.py` lines 233–299): refuse — before any network activity —
when `order.steadfast_consignment_id` is truthy, otherwise dispatch. -/
def sendToSteadfastAction (cfg : SFConfig) (ps : List Product) (order : Order)
    (net : NetOutcome) : Order × AdminDispatchResult × Bool :=
  if consignmentTruthy order.steadfast_consignment_id then
    (order, .alreadyDispatched, false)
  else adminDispatchCall cfg ps order net

/-- Embedding of `OrderAdmin.confirm_order` for one selected order
(`orders/admin.py` lines 91–177): refuse cancelled orders first, then
already-dispatched orders (truthy consignment id), then orders without
items; otherwise dispatch exactly as `send_to_steadfast`. -/
def confirmOrderAction (cfg : SFConfig) (ps : List Product) (order : Order)
    (net : NetOutcome) : Order × AdminDispatchResult × Bool :=
  if order.status = .cancelled then (order, .cancelledRefused, false)
  else if consignmentTruthy order.steadfast_consignment_id then
    (order, .alreadyDispatched, false)
  else if order.items.isEmpty then (order, .noItems, false)
  else adminDispatchCall cfg ps order net

/-- One entry of the `products` list accepted by
`ProductOrderItemSerializer` (`orders/serializers.py` lines 93–101). -/
structure ProductLine where
  product_id : Nat
  product_name : String
  product_size : String
  product_image : Option String
  quantity : Nat
  unit_price : Option Nat
  product_total : Option Nat
deriving DecidableEq, Repr

/-- A value stored in `serializer.validated_data`. -/
inductive FieldVal where
  | str (s : String)
  | dec (n : Nat)
  | lines (ls : List ProductLine)
deriving DecidableEq, Repr

/-- The declared fields of `SimpleOrderSerializer`
(`orders/serializers.py` lines 104–113) — the only keys its
`validated_data` can contain. -/
def simpleOrderSerializerFields : List String :=
  ["customer_name", "district", "address", "phone_number",
   "products", "product_total", "delivery_charge", "total_price"]

/-- A request that passed `SimpleOrderSerializer` validation: one value
per declared field. -/
structure ValidatedSimpleOrder where
  customer_name : String
  district : String
  address : String
  phone_number : String
  products : List ProductLine
  product_total : Nat
  delivery_charge : Nat
  total_price : Nat
deriving DecidableEq, Repr

/-- The `validated_data` dictionary produced by `SimpleOrderSerializer`:
exactly the declared fields, keyed by their names. -/
def ValidatedSimpleOrder.toDict (d : ValidatedSimpleOrder) : List (String × FieldVal) :=
  [("customer_name", .str d.customer_name),
   ("district", .str d.district),
   ("address", .str d.address),
   ("phone_number", .str d.phone_number),
   ("products", .lines d.products),
   ("product_total", .dec d.product_total),
   ("delivery_charge", .dec d.delivery_charge),
   ("total_price", .dec d.total_price)]

/-- Python `dict.get`: the value at the key, if present. -/
def dictGet (m : List (String × FieldVal)) (k : String) : Option FieldVal :=
  (m.find? (fun kv => kv.1 == k)).map (fun kv => kv.2)

/-- Failure taxonomy of `CreateOrderView.post`.  `keyError` is an uncaught
`KeyError` escaping the view (a 500, no structured response); the others
are its 404/400 responses. -/
inductive CreateOrderFailure where
  | keyError
  | typeError
  | notFound
  | outOfStock (available : Int)
deriving DecidableEq, Repr

/-- The remainder of `CreateOrderView.post` (`orders/views.py`
lines 34–130) once a `product_id` value has been obtained: single-product
validation, atomic commit of Order + OrderItem + stock decrement, then
the best-effort Steadfast call, writing the three fulfillment fields only
on courier success and never touching `status`.  `data.get('quantity', 1)`
and `data.get('product_size', '')` fall back to their defaults because
`SimpleOrderSerializer` declares neither key. -/
def createOrderRest (cfg : SFConfig) (st : Store) (data : ValidatedSimpleOrder)
    (pid : Nat) (session : String) (oid : Nat) (net : NetOutcome) :
    Except CreateOrderFailure (Store × Order) :=
  match findActiveProduct st.products pid with
  | none => .error .notFound
  | some product =>
    let quantity : Nat :=
      match dictGet data.toDict "quantity" with
      | some (.dec q) => q
      | _ => 1
    let size : String :=
      match dictGet data.toDict "product_size" with
      | some (.str s) => s
      | _ => ""
    if product.stock ≤ 0 then .error (.outOfStock product.stock)
    else if (quantity : Int) > product.stock then .error (.outOfStock product.stock)
    else
      let total := product.current_price * quantity
      let order : Order :=
        { id := oid
          session_key := session
          total_amount := total
          status := .pending
          shipping_address := data.address
          shipping_state := data.district
          customer_name := data.customer_name
          customer_phone := data.phone_number
          customer_email := ""
          notes := ""
          steadfast_consignment_id := none
          steadfast_tracking_code := ""
          steadfast_status := ""
          items := [{ product_id := product.id
                      quantity := quantity
                      price := product.current_price
                      product_size := size }] }
      let products2 := decrementStock st.products product.id quantity
      let st2 : Store := { products := products2, orders := st.orders ++ [order] }
      let payload : SFPayload :=
        { invoice := "ORD-" ++ toString order.id
          recipient_name := data.customer_name
          recipient_phone := data.phone_number
          recipient_address := data.address
          cod_amount := total
          recipient_email := if order.customer_email ≠ "" then some order.customer_email else none
          note := if order.notes ≠ "" then some order.notes else none
          item_description := some (itemDescLine quantity product.name size)
          total_lot := some quantity
          delivery_type := some 0 }
      let rc := createOrderService cfg payload net
      match rc.1.consignment with
      | some c =>
        if rc.1.status == some (.num 200) then
          let order2 := applyConsignment order c
          .ok ({ st2 with orders := saveOrder st2.orders order2 }, order2)
        else .ok (st2, order)
      | none => .ok (st2, order)

/-- Embedding of `CreateOrderView.post` (`orders/views.py` lines 25–130)
after serializer validation.  The first statement after validation is
`product = Product.objects.get(id=data['product_id'], ...)`: the
subscript of `validated_data` raises `KeyError` when the key is absent
(and could only proceed with an integer value). -/
def createOrderViewPost (cfg : SFConfig) (st : Store) (data : ValidatedSimpleOrder)
    (session : String) (oid : Nat) (net : NetOutcome) :
    Except CreateOrderFailure (Store × Order) :=
  match dictGet data.toDict "product_id" with
  | none => .error .keyError
  | some (.dec pid) => createOrderRest cfg st data pid session oid net
  | some _ => .error .typeError

/-- The phone-normalization algorithm as the specification words it
(strip all non-digits, strip a leading `880` country-code prefix when
present, left-pad a missing leading zero).  Stated only for comparison
against the source's `normalize_phone_number`. -/
def specNormalizePhone (phone : String) : String :=
  let digits := phone.data.filter Char.isDigit
  let stripped := if digits.take 3 = ['8', '8', '0'] then digits.drop 3 else digits
  let padded := if stripped.take 1 ≠ ['0'] then '0' :: stripped else stripped
  String.mk padded

namespace Conc

/-- Progress of one checkout request against the shared product row. -/
inductive Phase where
  | start
  | validated
  | committed
  | failed
deriving DecidableEq, Repr

/-- One concurrent `CheckoutFromCartView.post` request: the quantity it
wants and how far it has run. -/
structure CProc where
  qty : Nat
  phase : Phase
deriving DecidableEq, Repr

/-- The shared state under request-per-call concurrency: the product's
stock counter and the competing requests. -/
structure CSys where
  stock : Int
  procs : List CProc
deriving DecidableEq, Repr

/-- The two observable steps of one request, mirroring
`CheckoutFromCartView.post`: `validate` is the stock-sufficiency read
performed *before* the `transaction.atomic()` block (lines 353–359);
`commit` is the atomic block itself (lines 369–397), which creates the
order and decrements stock with an unconditional relative update —
without re-checking the stock it validated earlier. -/
inductive Act where
  | validate (i : Nat)
  | commit (i : Nat)
deriving DecidableEq, Repr

/-- Interleaving semantics: execute one step of one request.  A step for
an absent index or a request not in the right phase is a no-op. -/
def stepA (s : CSys) : Act → CSys
  | .validate i =>
    match s.procs.get? i with
    | some p =>
      if p.phase = .start then
        if (p.qty : Int) > s.stock then
          { s with procs := s.procs.set i { p with phase := .failed } }
        else
          { s with procs := s.procs.set i { p with phase := .validated } }
      else s
    | none => s
  | .commit i =>
    match s.procs.get? i with
    | some p =>
      if p.phase = .validated then
        { stock := s.stock - p.qty, procs := s.procs.set i { p with phase := .committed } }
      else s
    | none => s

/-- Run a schedule (one interleaving chosen by the server). -/
def run (s : CSys) (sched : List Act) : CSys :=
  sched.foldl stepA s

/-- Total quantity committed across the successful orders. -/
def committedQty (s : CSys) : Nat :=
  ((s.procs.filter (fun p => p.phase == .committed)).map (fun p => p.qty)).sum

end Conc

/-- The quantity of a product currently in the cart (0 when absent) —
the "existing cart quantity for this product" of the add-item check. -/
def cartQtyOf (cart : List CartItem) (pid : Nat) : Nat :=
  match cart.find? (fun it => it.product_id == pid) with
  | some it => it.quantity
  | none => 0

/-- A candidate line the specification calls invalid: its product row is
dangling, or its quantity exceeds the product's current stock. -/
def lineExceedsStock (ps : List Product) (it : CartItem) : Bool :=
  match findProduct ps it.product_id with
  | some p => (it.quantity : Int) > p.stock
  | none => true

/-- The database visible after an HTTP request to the checkout endpoint:
an error response means the transaction never committed, so the store is
unchanged. -/
def checkoutResultStore (cfg : SFConfig) (st : Store) (cart : List CartItem)
    (info : CheckoutInfo) (session : String) (oid : Nat) (net : NetOutcome) : Store :=
  match checkoutFromCartView cfg st cart info session oid net with
  | .ok r => r.1
  | .error _ => st

/-- The database visible after an HTTP request to the order-creation
endpoint: an uncaught exception or error response means no write
committed. -/
def createResultStore (cfg : SFConfig) (st : Store) (data : ValidatedSimpleOrder)
    (session : String) (oid : Nat) (net : NetOutcome) : Store :=
  match createOrderViewPost cfg st data session oid net with
  | .ok r => r.1
  | .error _ => st

/-- C7 counterexample: a product whose offer price (2000) is *higher*
than its regular price (1000) still gets the offer price as its current
price — the claim that such an offer does not become the current price is
false: the source never compares the two. -/
theorem C7_counterexample :
    let p : Product :=
      { id := 1, name := "A", regular_price := 1000, offer_price := some 2000,
        stock := 5, is_active := true }
    p.offer_price = some 2000 ∧ ¬ (2000 < p.regular_price) ∧
      p.current_price = 2000 ∧ p.current_price ≠ p.regular_price := by
  decide

/-- C2: evaluating the interleaved embedding of two concurrent checkouts
at the failing input — stock 5, two requests of 5 each, both validating
before either commits — shows both orders commit: total quantity 10
exceeds the stock 5 and the stock counter goes negative, because the
validation read happens outside the transaction and the decrement is
unconditional. -/
theorem C2_race_oversell :
    let s0 : Conc.CSys := { stock := 5, procs := [⟨5, .start⟩, ⟨5, .start⟩] }
    let s1 := Conc.run s0 [.validate 0, .validate 1, .commit 0, .commit 1]
    Conc.committedQty s1 = 10 ∧ s1.stock = -5 ∧ 10 > 5 := by
  decide

/-- C9 counterexample: the input `88001712345678` carries a leading 880
country-code prefix, but `normalize_phone_number` does not strip it (the
digit string has 14 digits, not 13), returning it unchanged — while the
specification's algorithm would produce the 11-digit `01712345678`.  The
unstripped number is then rejected locally. -/
theorem C9_counterexample :
    normalize_phone_number "88001712345678" = "88001712345678" ∧
    specNormalizePhone "88001712345678" = "01712345678" ∧
    normalize_phone_number "88001712345678" ≠ specNormalizePhone "88001712345678" ∧
    validSteadfastPhone (normalize_phone_number "88001712345678") = false := by
  decide

/-- C1 counterexample: a cart whose only line references an *inactive*
product (with sufficient stock) is committed by the checkout path — an
Order row is created and the stock is decremented — contradicting the
claim that such a candidate order commits nothing. -/
theorem C1_counterexample :
    let st : Store :=
      { products := [{ id := 1, name := "A", regular_price := 1000, offer_price := none,
                       stock := 5, is_active := false }], orders := [] }
    let info : CheckoutInfo :=
      { customer_name := "N", district := "D", address := "Addr",
        phone_number := "01712345678", product_size := "" }
    let r := checkoutFromCartView { api_key := none, secret_key := none } st
      [⟨1, 1⟩] info "sess" 1 (.httpErr "boom")
    (st.products.map (fun p => p.is_active)) = [false] ∧
    r.toOption.map (fun x => (x.1.orders.length, x.1.products.map (fun p => p.stock))) =
      some (1, [4]) := by
  decide

/-- C10: `SimpleOrderSerializer` never produces a `product_id` key, so
`CreateOrderView.post` hits an uncaught `KeyError` on every validated
request — no order is ever created and the store is unchanged. -/
theorem C10_create_order_key_error :
    ("product_id" ∉ simpleOrderSerializerFields) ∧
    (∀ d : ValidatedSimpleOrder, dictGet d.toDict "product_id" = none) ∧
    (∀ cfg st d session oid net,
      createOrderViewPost cfg st d session oid net = .error .keyError) ∧
    (∀ cfg st d session oid net,
      createResultStore cfg st d session oid net = st) := by
  refine ⟨by decide, fun d => rfl, fun cfg st d session oid net => rfl,
    fun cfg st d session oid net => rfl⟩

/-- C4 counterexample: an order whose consignment id is *set* but equal to
0 is re-dispatched — the Python truthiness check `if
order.steadfast_consignment_id:` treats 0 like `None`, so the courier
call is performed again instead of failing with `AlreadyDispatched`. -/
theorem C4_counterexample :
    let order : Order :=
      { id := 9, session_key := "s", total_amount := 2000, status := .pending,
        shipping_address := "Ad", shipping_state := "D", customer_name := "N",
        customer_email := "", customer_phone := "01712345678", notes := "",
        steadfast_consignment_id := some 0, steadfast_tracking_code := "",
        steadfast_status := "", items := [⟨1, 2, 1000, ""⟩] }
    let r := sendToSteadfastAction { api_key := some "k", secret_key := some "s" }
      [{ id := 1, name := "A", regular_price := 1000, offer_price := none,
         stock := 5, is_active := true }] order
      (.httpOk { status := some (.num 200),
                 consignment := some { consignment_id := some 77,
                                       tracking_code := some "TRK",
                                       status := some "in_review" },
                 message := none })
    order.steadfast_consignment_id ≠ none ∧
    r.2.1 ≠ .alreadyDispatched ∧ r.2.2 = true := by
  decide

/-- C5 counterexample: at the checkout call site a successful courier
response writes the three fulfillment fields but the order status remains
`pending`, not `sent` — the claim that every dispatch call site advances
the status to `sent` is false. -/
theorem C5_counterexample :
    let st : Store :=
      { products := [{ id := 1, name := "A", regular_price := 1000, offer_price := none,
                       stock := 5, is_active := true }], orders := [] }
    let info : CheckoutInfo :=
      { customer_name := "N", district := "D", address := "Addr",
        phone_number := "01712345678", product_size := "" }
    let r := checkoutFromCartView { api_key := some "k", secret_key := some "s" } st
      [⟨1, 2⟩] info "sess" 1
      (.httpOk { status := some (.num 200),
                 consignment := some { consignment_id := some 77,
                                       tracking_code := some "TRK",
                                       status := some "in_review" },
                 message := none })
    r.toOption.map (fun x =>
      (x.2.steadfast_consignment_id, x.2.steadfast_tracking_code,
       x.2.steadfast_status, x.2.status)) =
      some (some 77, "TRK", "in_review", .pending) ∧
    OrderStatus.pending ≠ OrderStatus.sent := by
  decide

/-- Helper: the checkout validation loop reports an error whenever some
cart line is invalid (dangling product or quantity above stock). -/
theorem findInvalidLine_ne_none (ps : List Product) (cart : List CartItem)
    (h : ∃ it ∈ cart, lineExceedsStock ps it = true) :
    findInvalidLine ps cart ≠ none := by
  induction cart with
  | nil => simp at h
  | cons a rest ih =>
    obtain ⟨it, hmem, hbad⟩ := h
    rw [findInvalidLine]
    cases hfp : findProduct ps a.product_id with
    | none => simp
    | some p =>
      by_cases hlt : (a.quantity : Int) > p.stock
      · simp [hlt]
      · simp only [hlt, if_false]
        apply ih
        rcases List.mem_cons.mp hmem with rfl | hmem2
        · exfalso
          rw [lineExceedsStock, hfp] at hbad
          simp at hbad
          omega
        · exact ⟨it, hmem2, hbad⟩

/-- Helper: when the checkout validation loop reports no error, every cart
line has an existing product with sufficient stock. -/
theorem findInvalidLine_none_ok (ps : List Product) (cart : List CartItem)
    (h : findInvalidLine ps cart = none) :
    ∀ it ∈ cart, ∃ p, findProduct ps it.product_id = some p ∧ (it.quantity : Int) ≤ p.stock := by
  induction cart with
  | nil => simp
  | cons a rest ih =>
    rw [findInvalidLine] at h
    cases hfp : findProduct ps a.product_id with
    | none => rw [hfp] at h; simp at h
    | some p =>
      rw [hfp] at h
      by_cases hlt : (a.quantity : Int) > p.stock
      · simp [hlt] at h
      · simp only [hlt, if_false] at h
        intro it hmem
        rcases List.mem_cons.mp hmem with rfl | hmem2
        · exact ⟨p, hfp, by omega⟩
        · exact ih h it hmem2

/-- Helper: shape of a successfully committed checkout — fresh `pending`
order, unset fulfillment fields, items snapshotted from the cart, order
appended, and a clean validation pass. -/
theorem checkoutCommit_ok_shape (st : Store) (cart : List CartItem) (info : CheckoutInfo)
    (session : String) (oid : Nat) (st2 : Store) (order : Order)
    (h : checkoutCommit st cart info session oid = .ok (st2, order)) :
    order.status = .pending ∧ order.steadfast_consignment_id = none ∧
    order.steadfast_tracking_code = "" ∧ order.steadfast_status = "" ∧
    order.id = oid ∧
    order.items = orderItemsOfCart st.products cart info.product_size ∧
    st2.orders = st.orders ++ [order] ∧
    findInvalidLine st.products cart = none := by
  rw [checkoutCommit] at h
  by_cases he : cart.isEmpty
  · simp [he] at h
  · rw [if_neg he] at h
    cases hfi : findInvalidLine st.products cart with
    | some e => rw [hfi] at h; simp at h
    | none =>
      rw [hfi] at h
      simp only [Except.ok.injEq, Prod.mk.injEq] at h
      obtain ⟨hst2, horder⟩ := h
      subst hst2
      subst horder
      refine ⟨rfl, rfl, rfl, rfl, rfl, rfl, rfl, rfl⟩

/-- C1 (amended): a candidate order containing a line whose quantity
exceeds the product's stock (or whose product row is dangling) commits
nothing on the checkout path — no Order, no OrderItems, no stock change —
and the order-creation path commits nothing for any request (it dies with
`KeyError`).  Inactive products are not rejected by checkout, which is
what the counterexample shows. -/
theorem C1_amended :
    (∀ cfg st cart info session oid net,
      (∃ it ∈ cart, lineExceedsStock st.products it = true) →
      checkoutResultStore cfg st cart info session oid net = st ∧
      ∀ r, checkoutFromCartView cfg st cart info session oid net ≠ .ok r) ∧
    (∀ cfg st data session oid net,
      createOrderViewPost cfg st data session oid net = .error .keyError ∧
      createResultStore cfg st data session oid net = st) := by
  constructor
  · intro cfg st cart info session oid net h
    have hne := findInvalidLine_ne_none st.products cart h
    cases hfi : findInvalidLine st.products cart with
    | none => exact absurd hfi hne
    | some e =>
      have hcommit : checkoutCommit st cart info session oid = .error e := by
        rw [checkoutCommit]
        have hcne : cart.isEmpty = false := by
          obtain ⟨it, hmem, _⟩ := h
          cases cart with
          | nil => simp at hmem
          | cons a rest => rfl
        rw [hcne]
        simp [hfi]
      have hview : checkoutFromCartView cfg st cart info session oid net = .error e := by
        rw [checkoutFromCartView, hcommit]
      refine ⟨?_, ?_⟩
      · rw [checkoutResultStore, hview]
      · intro r hr
        rw [hview] at hr
        exact Except.noConfusion hr
  · intro cfg st data session oid net
    exact ⟨rfl, rfl⟩

/-- C1 witness: a concrete over-quantity checkout (6 requested, 5 in
stock) leaves the store unchanged. -/
theorem C1_witness :
    checkoutResultStore { api_key := none, secret_key := none }
      { products := [{ id := 1, name := "A", regular_price := 1000, offer_price := none,
                       stock := 5, is_active := true }], orders := [] }
      [⟨1, 6⟩]
      { customer_name := "N", district := "D", address := "Addr",
        phone_number := "01712345678", product_size := "" }
      "sess" 1 (.httpErr "boom") =
    { products := [{ id := 1, name := "A", regular_price := 1000, offer_price := none,
                     stock := 5, is_active := true }], orders := [] } := by
  exact (C1_amended.1 _ _ _ _ _ _ _ (by decide)).1

/-- C6: every item of an order committed by checkout stores the product's
`current_price` computed at commit time (no unit price is caller-supplied
on this path); a later change to the product's regular or offer price
touches only the product table, never the order rows; and the item
subtotal always reads the stored price column. -/
theorem C6_price_frozen :
    ∀ st cart info session oid st2 order,
      checkoutCommit st cart info session oid = .ok (st2, order) →
      (∀ it ∈ order.items, ∃ p, findProduct st.products it.product_id = some p ∧
        it.price = p.current_price) ∧
      (∀ pid reg off, (updateProductPrice st2 pid reg off).orders = st2.orders) ∧
      (∀ it : OrderItem, it.get_subtotal = it.price * it.quantity) := by
  intro st cart info session oid st2 order h
  obtain ⟨-, -, -, -, -, hitems, -, hfi⟩ := checkoutCommit_ok_shape _ _ _ _ _ _ _ h
  refine ⟨?_, fun pid reg off => rfl, fun it => rfl⟩
  intro it hmem
  rw [hitems] at hmem
  rw [orderItemsOfCart] at hmem
  obtain ⟨c, hcmem, hceq⟩ := List.mem_map.mp hmem
  obtain ⟨p, hfp, -⟩ := findInvalidLine_none_ok st.products cart hfi c hcmem
  refine ⟨p, by rw [← hceq]; exact hfp, ?_⟩
  rw [← hceq]
  simp [hfp]

/-- C3: when the courier call fails (non-200 status, missing consignment
object, network error, or disabled configuration — all the cases where
`respSuccess` is false), the admin dispatch returns the order *unchanged*
with a non-fatal `.failed` result, and the checkout view returns exactly
the committed store and order: fulfillment fields stay unset and the
status stays `pending`.  No exception propagates: both embeddings are
total functions returning error values. -/
theorem C3_failure_frame :
    (∀ cfg ps order net,
      consignmentTruthy order.steadfast_consignment_id = false →
      respSuccess (createOrderService cfg (adminPayload ps order) net).1 = false →
      sendToSteadfastAction cfg ps order net =
        (order,
         .failed ((createOrderService cfg (adminPayload ps order) net).1.message.getD "Unknown error"),
         (createOrderService cfg (adminPayload ps order) net).2)) ∧
    (∀ cfg st cart info session oid net st2 order,
      checkoutCommit st cart info session oid = .ok (st2, order) →
      respSuccess (createOrderService cfg (checkoutPayload st.products cart info order) net).1 = false →
      checkoutFromCartView cfg st cart info session oid net = .ok (st2, order) ∧
      order.status = .pending ∧ order.steadfast_consignment_id = none ∧
      order.steadfast_tracking_code = "" ∧ order.steadfast_status = "") := by
  constructor
  · intro cfg ps order net hguard hfail
    rw [sendToSteadfastAction, if_neg (by simp [hguard])]
    rw [adminDispatchCall]
    rw [respSuccess] at hfail
    cases hc : (createOrderService cfg (adminPayload ps order) net).1.consignment with
    | none => simp
    | some c =>
      rw [hc] at hfail
      simp only [Option.isSome_some, Bool.and_true] at hfail
      simp [hfail]
  · intro cfg st cart info session oid net st2 order hcommit hfail
    obtain ⟨h1, h2, h3, h4, -, -, -, -⟩ := checkoutCommit_ok_shape _ _ _ _ _ _ _ hcommit
    refine ⟨?_, h1, h2, h3, h4⟩
    rw [checkoutFromCartView, hcommit]
    rw [respSuccess] at hfail
    cases hc : (createOrderService cfg (checkoutPayload st.products cart info order) net).1.consignment with
    | none => simp [hc]
    | some c =>
      rw [hc] at hfail
      simp only [Option.isSome_some, Bool.and_true] at hfail
      simp [hc, hfail]

/-- C4 (amended): an order whose consignment id is set to a *nonzero*
value is refused with `AlreadyDispatched` before any network activity, by
both admin actions (for `confirm_order`, provided the order is not
cancelled, which is checked first); an order whose consignment id is null
— as after a failed dispatch — is never refused as already dispatched, so
retries are permitted. -/
theorem C4_amended_guard :
    (∀ cfg ps order net n, order.steadfast_consignment_id = some n → n ≠ 0 →
      sendToSteadfastAction cfg ps order net = (order, .alreadyDispatched, false)) ∧
    (∀ cfg ps order net n, order.status ≠ .cancelled →
      order.steadfast_consignment_id = some n → n ≠ 0 →
      confirmOrderAction cfg ps order net = (order, .alreadyDispatched, false)) ∧
    (∀ cfg ps order net, order.steadfast_consignment_id = none →
      (sendToSteadfastAction cfg ps order net).2.1 ≠ .alreadyDispatched) := by
  refine ⟨?_, ?_, ?_⟩
  · intro cfg ps order net n hset hnz
    rw [sendToSteadfastAction, if_pos (by simp [consignmentTruthy, hset, hnz])]
  · intro cfg ps order net n hnc hset hnz
    rw [confirmOrderAction, if_neg hnc, if_pos (by simp [consignmentTruthy, hset, hnz])]
  · intro cfg ps order net hnone
    rw [sendToSteadfastAction, if_neg (by simp [consignmentTruthy, hnone])]
    rw [adminDispatchCall]
    cases hc : (createOrderService cfg (adminPayload ps order) net).1.consignment with
    | none => simp
    | some c =>
      by_cases hs : (createOrderService cfg (adminPayload ps order) net).1.status == some (.num 200)
      · simp [hs]
      · simp [hs]

/-- C5 (amended): on courier success (status 200 with a consignment
object) the three fulfillment fields are written together from the
consignment at every call site; the two admin actions additionally
advance the status to `sent`, while the checkout view leaves the status
`pending`. -/
theorem C5_amended_fields :
    (∀ cfg ps order net c,
      consignmentTruthy order.steadfast_consignment_id = false →
      (createOrderService cfg (adminPayload ps order) net).1.status = some (.num 200) →
      (createOrderService cfg (adminPayload ps order) net).1.consignment = some c →
      sendToSteadfastAction cfg ps order net =
        ({ applyConsignment order c with status := .sent }, .success,
         (createOrderService cfg (adminPayload ps order) net).2)) ∧
    (∀ cfg ps order net c,
      order.status ≠ .cancelled →
      consignmentTruthy order.steadfast_consignment_id = false →
      order.items ≠ [] →
      (createOrderService cfg (adminPayload ps order) net).1.status = some (.num 200) →
      (createOrderService cfg (adminPayload ps order) net).1.consignment = some c →
      confirmOrderAction cfg ps order net =
        ({ applyConsignment order c with status := .sent }, .success,
         (createOrderService cfg (adminPayload ps order) net).2)) ∧
    (∀ cfg st cart info session oid net st2 order c,
      checkoutCommit st cart info session oid = .ok (st2, order) →
      (createOrderService cfg (checkoutPayload st.products cart info order) net).1.status = some (.num 200) →
      (createOrderService cfg (checkoutPayload st.products cart info order) net).1.consignment = some c →
      checkoutFromCartView cfg st cart info session oid net =
        .ok ({ st2 with orders := saveOrder st2.orders (applyConsignment order c) },
             applyConsignment order c) ∧
      (applyConsignment order c).status = .pending ∧
      (applyConsignment order c).steadfast_consignment_id = c.consignment_id ∧
      (applyConsignment order c).steadfast_tracking_code = c.tracking_code.getD "" ∧
      (applyConsignment order c).steadfast_status = c.status.getD "") := by
  refine ⟨?_, ?_, ?_⟩
  · intro cfg ps order net c hguard hs hc
    rw [sendToSteadfastAction, if_neg (by simp [hguard])]
    rw [adminDispatchCall]
    simp [hc, hs]
  · intro cfg ps order net c hnc hguard hni hs hc
    rw [confirmOrderAction, if_neg hnc, if_neg (by simp [hguard]),
        if_neg (by simpa [List.isEmpty_iff] using hni)]
    rw [adminDispatchCall]
    simp [hc, hs]
  · intro cfg st cart info session oid net st2 order c hcommit hs hc
    obtain ⟨h1, -, -, -, -, -, -, -⟩ := checkoutCommit_ok_shape _ _ _ _ _ _ _ hcommit
    refine ⟨?_, ?_, rfl, rfl, rfl⟩
    · rw [checkoutFromCartView, hcommit]
      simp [hc, hs]
    · rw [applyConsignment]
      exact h1

/-- C8: adding to the cart fails with `NotFound` when no active product
matches; fails with a stock-conflict error — leaving the cart unmodified
and the product list untouched — when stock < existing cart quantity +
requested quantity; otherwise succeeds, creating or incrementing the cart
line to the summed quantity, again without touching stock.  The stock-5
scenario (add 3 → 3; add 3 → error; add 2 → 5) is included. -/
theorem C8_addToCart :
    (∀ (ps : List Product) (cart : List CartItem) (pid qty : Nat),
      findActiveProduct ps pid = none →
      addToCartView ps cart pid qty = .error .notFound) ∧
    (∀ (ps : List Product) (cart : List CartItem) (pid qty : Nat) (p : Product),
      findActiveProduct ps pid = some p →
      1 ≤ qty → p.stock < (cartQtyOf cart pid : Int) + (qty : Int) →
      addToCartView ps cart pid qty = .error (.insufficientStock p.stock)) ∧
    (∀ (ps : List Product) (cart : List CartItem) (pid qty : Nat) (p : Product),
      findActiveProduct ps pid = some p →
      1 ≤ qty → (cartQtyOf cart pid : Int) + (qty : Int) ≤ p.stock →
      ∃ cart2, addToCartView ps cart pid qty = .ok (ps, cart2) ∧
        ∃ it ∈ cart2, it.product_id = pid ∧ it.quantity = cartQtyOf cart pid + qty) ∧
    (addToCartView
        [{ id := 1, name := "A", regular_price := 1000, offer_price := none,
           stock := 5, is_active := true }] [] 1 3 =
      .ok ([{ id := 1, name := "A", regular_price := 1000, offer_price := none,
              stock := 5, is_active := true }], [⟨1, 3⟩]) ∧
     addToCartView
        [{ id := 1, name := "A", regular_price := 1000, offer_price := none,
           stock := 5, is_active := true }] [⟨1, 3⟩] 1 3 =
      .error (.insufficientStock 5) ∧
     addToCartView
        [{ id := 1, name := "A", regular_price := 1000, offer_price := none,
           stock := 5, is_active := true }] [⟨1, 3⟩] 1 2 =
      .ok ([{ id := 1, name := "A", regular_price := 1000, offer_price := none,
              stock := 5, is_active := true }], [⟨1, 5⟩])) := by
  refine ⟨?_, ?_, ?_, by rfl, by rfl, by rfl⟩
  · intro ps cart pid qty h
    simp [addToCartView, h]
  · intro ps cart pid qty p hfp h1 hlt
    simp only [addToCartView, hfp]
    by_cases hs0 : p.stock ≤ 0
    · simp [hs0]
    · rw [if_neg hs0]
      cases hfind : cart.find? (fun it => it.product_id == pid) with
      | some item =>
        have hq : cartQtyOf cart pid = item.quantity := by rw [cartQtyOf, hfind]
        rw [hq] at hlt
        simp only []
        rw [if_pos (by omega)]
      | none =>
        have hq : cartQtyOf cart pid = 0 := by rw [cartQtyOf, hfind]
        rw [hq] at hlt
        simp only []
        rw [if_pos (by push_cast at hlt; omega)]
  · intro ps cart pid qty p hfp h1 hle
    simp only [addToCartView, hfp]
    have hs0 : ¬ p.stock ≤ 0 := by
      have h0 : (0 : Int) ≤ (cartQtyOf cart pid : Int) := by positivity
      omega
    rw [if_neg hs0]
    cases hfind : cart.find? (fun it => it.product_id == pid) with
    | some item =>
      have hq : cartQtyOf cart pid = item.quantity := by rw [cartQtyOf, hfind]
      rw [hq] at hle
      have hpid : item.product_id = pid := by
        have := List.find?_some hfind
        simpa using this
      refine ⟨cart.map (fun it =>
        if it.product_id == pid then { it with quantity := item.quantity + qty } else it),
        ?_, ?_⟩
      · simp only []
        rw [if_neg (by omega)]
      · refine ⟨{ item with quantity := item.quantity + qty }, ?_, by simp [hpid], by simp [hq]⟩
        have hmem := List.mem_of_find?_eq_some hfind
        have hmap := List.mem_map_of_mem (f := fun it =>
          if it.product_id == pid then { it with quantity := item.quantity + qty } else it) hmem
        simpa [hpid] using hmap
    | none =>
      have hq : cartQtyOf cart pid = 0 := by rw [cartQtyOf, hfind]
      rw [hq] at hle
      refine ⟨cart ++ [⟨pid, qty⟩], ?_, ⟨⟨pid, qty⟩, by simp, rfl, by simp [hq]⟩⟩
      simp only []
      rw [if_neg (by push_cast at hle ⊢; omega)]

/-- Helper: the character data of a packed string. -/
theorem string_mk_data (l : List Char) : (String.mk l).data = l := rfl

/-- C9 (amended): the normalization always yields a digits-only string;
the canonical local formats are normalized to the 11-digit local form —
an 11-digit `0…` number passes unchanged, and its 13-digit `880…`
variants (with or without `+`) have the prefix stripped and the zero
restored; and a phone that does not normalize to a valid 11-digit number
makes `create_order` return an error locally, with no network call. -/
theorem C9_amended :
    (∀ phone : String, ((normalize_phone_number phone).data.all Char.isDigit) = true) ∧
    (∀ rest : List Char, rest.length = 10 → rest.all Char.isDigit = true →
      rest.take 1 ≠ ['0'] →
      normalize_phone_number (String.mk ('0' :: rest)) = String.mk ('0' :: rest) ∧
      normalize_phone_number (String.mk ('8' :: '8' :: '0' :: rest)) = String.mk ('0' :: rest) ∧
      normalize_phone_number (String.mk ('+' :: '8' :: '8' :: '0' :: rest)) = String.mk ('0' :: rest)) ∧
    (∀ cfg payload net, cfg.is_enabled = true →
      validSteadfastPhone (normalize_phone_number (pyStrip payload.recipient_phone)) = false →
      createOrderService cfg payload net = (badPhoneResponse, false)) := by
  refine ⟨?_, ?_, ?_⟩
  · intro phone
    by_cases h : phone = ""
    · subst h; decide
    · rw [normalize_phone_number, if_neg h, string_mk_data, List.all_eq_true]
      intro c hc
      have hdig : ∀ x ∈ phone.data.filter Char.isDigit, Char.isDigit x = true :=
        fun x hx => List.of_mem_filter hx
      have hstrip : ∀ x ∈ stripStep (phone.data.filter Char.isDigit), Char.isDigit x = true := by
        intro x hx
        rw [stripStep] at hx
        split at hx
        · exact hdig x (List.mem_of_mem_drop hx)
        · exact hdig x hx
      rw [padStep] at hc
      split at hc
      · rcases List.mem_cons.mp hc with rfl | hc2
        · decide
        · exact hstrip c hc2
      · exact hstrip c hc
  · intro rest hlen hall htake
    have hrest : ∀ x ∈ rest, Char.isDigit x = true := List.all_eq_true.mp hall
    have hfr : rest.filter Char.isDigit = rest := List.filter_eq_self.mpr hrest
    refine ⟨?_, ?_, ?_⟩
    · have hne : String.mk ('0' :: rest) ≠ "" := by
        intro hEq
        have h2 := congrArg String.data hEq
        rw [string_mk_data] at h2
        simp at h2
      rw [normalize_phone_number, if_neg hne, string_mk_data]
      rw [List.filter_cons_of_pos (by decide), hfr]
      rw [stripStep, if_neg ?notStrip]
      case notStrip =>
        rintro ⟨h1, -⟩
        simp only [List.take_succ_cons, List.cons.injEq] at h1
        exact absurd h1.1 (by decide)
      rw [padStep, if_neg ?notPad]
      case notPad =>
        rintro ⟨h1, -⟩
        rw [List.length_cons, hlen] at h1
        omega
    · have hne : String.mk ('8' :: '8' :: '0' :: rest) ≠ "" := by
        intro hEq
        have h2 := congrArg String.data hEq
        rw [string_mk_data] at h2
        simp at h2
      rw [normalize_phone_number, if_neg hne, string_mk_data]
      rw [List.filter_cons_of_pos (by decide), List.filter_cons_of_pos (by decide),
          List.filter_cons_of_pos (by decide), hfr]
      rw [stripStep, if_pos ⟨by simp [List.take_succ_cons],
            by simp [List.length_cons, hlen]⟩]
      rw [List.drop_succ_cons, List.drop_succ_cons, List.drop_succ_cons, List.drop_zero]
      rw [padStep, if_pos ⟨hlen, htake⟩]
    · have hne : String.mk ('+' :: '8' :: '8' :: '0' :: rest) ≠ "" := by
        intro hEq
        have h2 := congrArg String.data hEq
        rw [string_mk_data] at h2
        simp at h2
      rw [normalize_phone_number, if_neg hne, string_mk_data]
      rw [List.filter_cons_of_neg (by decide), List.filter_cons_of_pos (by decide),
          List.filter_cons_of_pos (by decide), List.filter_cons_of_pos (by decide), hfr]
      rw [stripStep, if_pos ⟨by simp [List.take_succ_cons],
            by simp [List.length_cons, hlen]⟩]
      rw [List.drop_succ_cons, List.drop_succ_cons, List.drop_succ_cons, List.drop_zero]
      rw [padStep, if_pos ⟨hlen, htake⟩]
  · intro cfg payload net hen hval
    simp [createOrderService, hen, hval]

/-- C7 (amended): `current_price` is the offer price whenever the offer
price is set and nonzero — regardless of any comparison with the regular
price — and the regular price when the offer price is null (or the
falsy 0, unreachable under the model's validators). -/
theorem C7_amended_price_selection :
    (∀ (p : Product) (op : Nat), p.offer_price = some op → op ≠ 0 →
      p.current_price = op) ∧
    (∀ p : Product, p.offer_price = none → p.current_price = p.regular_price) ∧
    (∀ p : Product, p.offer_price = some 0 → p.current_price = p.regular_price) := by
  refine ⟨?_, ?_, ?_⟩
  · intro p op h hne
    simp [Product.current_price, h, hne]
  · intro p h
    simp [Product.current_price, h]
  · intro p h
    simp [Product.current_price, h]

/-- C7 witness: concrete products for each branch of the price
selection. -/
theorem C7_witness :
    (Product.mk 1 "A" 1000 (some 2000) 5 true).current_price = 2000 ∧
    (Product.mk 2 "B" 1000 none 5 true).current_price = 1000 ∧
    (Product.mk 3 "C" 1000 (some 0) 5 true).current_price = 1000 := by
  exact ⟨C7_amended_price_selection.1 _ 2000 rfl (by decide),
         C7_amended_price_selection.2.1 _ rfl,
         C7_amended_price_selection.2.2 _ rfl⟩

/-- C3 witness: a concrete dispatch with unconfigured credentials leaves
the order unchanged and reports a `.failed` result without raising. -/
theorem C3_witness :
    sendToSteadfastAction { api_key := none, secret_key := none } []
      { id := 1, session_key := "s", total_amount := 1000, status := .pending,
        shipping_address := "Ad", shipping_state := "D", customer_name := "N",
        customer_email := "", customer_phone := "01712345678", notes := "",
        steadfast_consignment_id := none, steadfast_tracking_code := "",
        steadfast_status := "", items := [] }
      (.httpErr "down") =
    ({ id := 1, session_key := "s", total_amount := 1000, status := .pending,
       shipping_address := "Ad", shipping_state := "D", customer_name := "N",
       customer_email := "", customer_phone := "01712345678", notes := "",
       steadfast_consignment_id := none, steadfast_tracking_code := "",
       steadfast_status := "", items := [] },
     .failed "Steadfast integration is not configured", false) := by
  have h := C3_failure_frame.1 { api_key := none, secret_key := none } []
    { id := 1, session_key := "s", total_amount := 1000, status := .pending,
      shipping_address := "Ad", shipping_state := "D", customer_name := "N",
      customer_email := "", customer_phone := "01712345678", notes := "",
      steadfast_consignment_id := none, steadfast_tracking_code := "",
      steadfast_status := "", items := [] }
    (.httpErr "down") (by decide) (by decide)
  exact h.trans (by decide)

/-- C4 witness: a concrete order with consignment id 77 is refused with
`AlreadyDispatched` and no network call. -/
theorem C4_witness :
    sendToSteadfastAction { api_key := some "k", secret_key := some "s" } []
      { id := 2, session_key := "s", total_amount := 1000, status := .pending,
        shipping_address := "Ad", shipping_state := "D", customer_name := "N",
        customer_email := "", customer_phone := "01712345678", notes := "",
        steadfast_consignment_id := some 77, steadfast_tracking_code := "TRK",
        steadfast_status := "in_review", items := [] }
      (.httpErr "down") =
    ({ id := 2, session_key := "s", total_amount := 1000, status := .pending,
       shipping_address := "Ad", shipping_state := "D", customer_name := "N",
       customer_email := "", customer_phone := "01712345678", notes := "",
       steadfast_consignment_id := some 77, steadfast_tracking_code := "TRK",
       steadfast_status := "in_review", items := [] },
     .alreadyDispatched, false) := by
  exact C4_amended_guard.1 _ _ _ _ 77 rfl (by decide)

/-- C5 witness: a concrete successful admin dispatch writes consignment id
77, the tracking code, the courier status, and advances the status to
`sent`. -/
theorem C5_witness :
    sendToSteadfastAction { api_key := some "k", secret_key := some "s" } []
      { id := 3, session_key := "s", total_amount := 1000, status := .pending,
        shipping_address := "Ad", shipping_state := "D", customer_name := "N",
        customer_email := "", customer_phone := "01712345678", notes := "",
        steadfast_consignment_id := none, steadfast_tracking_code := "",
        steadfast_status := "", items := [] }
      (.httpOk { status := some (.num 200),
                 consignment := some { consignment_id := some 77,
                                       tracking_code := some "TRK",
                                       status := some "in_review" },
                 message := none }) =
    ({ id := 3, session_key := "s", total_amount := 1000, status := .sent,
       shipping_address := "Ad", shipping_state := "D", customer_name := "N",
       customer_email := "", customer_phone := "01712345678", notes := "",
       steadfast_consignment_id := some 77, steadfast_tracking_code := "TRK",
       steadfast_status := "in_review", items := [] },
     .success, true) := by
  have h := C5_amended_fields.1 { api_key := some "k", secret_key := some "s" } []
    { id := 3, session_key := "s", total_amount := 1000, status := .pending,
      shipping_address := "Ad", shipping_state := "D", customer_name := "N",
      customer_email := "", customer_phone := "01712345678", notes := "",
      steadfast_consignment_id := none, steadfast_tracking_code := "",
      steadfast_status := "", items := [] }
    (.httpOk { status := some (.num 200),
               consignment := some { consignment_id := some 77,
                                     tracking_code := some "TRK",
                                     status := some "in_review" },
               message := none })
    { consignment_id := some 77, tracking_code := some "TRK", status := some "in_review" }
    (by decide) (by decide) (by decide)
  exact h.trans (by decide)

/-- C6 witness: after a concrete checkout freezes price 1000 into the
order item, repricing the product to 7777 leaves the order rows — and the
stored item price — unchanged. -/
theorem C6_witness :
    (updateProductPrice
      { products := [{ id := 1, name := "A", regular_price := 1000, offer_price := none,
                       stock := 3, is_active := true }],
        orders := [{ id := 1, session_key := "sess", total_amount := 2000,
                     status := .pending, shipping_address := "Addr",
                     shipping_state := "D", customer_name := "N", customer_email := "",
                     customer_phone := "01712345678", notes := "",
                     steadfast_consignment_id := none, steadfast_tracking_code := "",
                     steadfast_status := "",
                     items := [{ product_id := 1, quantity := 2, price := 1000,
                                 product_size := "" }] }] }
      1 7777 none).orders =
    [{ id := 1, session_key := "sess", total_amount := 2000,
       status := .pending, shipping_address := "Addr",
       shipping_state := "D", customer_name := "N", customer_email := "",
       customer_phone := "01712345678", notes := "",
       steadfast_consignment_id := none, steadfast_tracking_code := "",
       steadfast_status := "",
       items := [{ product_id := 1, quantity := 2, price := 1000,
                   product_size := "" }] }] := by
  have h := C6_price_frozen
    { products := [{ id := 1, name := "A", regular_price := 1000, offer_price := none,
                     stock := 5, is_active := true }], orders := [] }
    [⟨1, 2⟩]
    { customer_name := "N", district := "D", address := "Addr",
      phone_number := "01712345678", product_size := "" }
    "sess" 1
    { products := [{ id := 1, name := "A", regular_price := 1000, offer_price := none,
                     stock := 3, is_active := true }],
      orders := [{ id := 1, session_key := "sess", total_amount := 2000,
                   status := .pending, shipping_address := "Addr",
                   shipping_state := "D", customer_name := "N", customer_email := "",
                   customer_phone := "01712345678", notes := "",
                   steadfast_consignment_id := none, steadfast_tracking_code := "",
                   steadfast_status := "",
                   items := [{ product_id := 1, quantity := 2, price := 1000,
                               product_size := "" }] }] }
    { id := 1, session_key := "sess", total_amount := 2000,
      status := .pending, shipping_address := "Addr",
      shipping_state := "D", customer_name := "N", customer_email := "",
      customer_phone := "01712345678", notes := "",
      steadfast_consignment_id := none, steadfast_tracking_code := "",
      steadfast_status := "",
      items := [{ product_id := 1, quantity := 2, price := 1000,
                  product_size := "" }] }
    rfl
  exact h.2.1 1 7777 none

/-- C8 witness: concrete failing adds — a missing product and an
over-quantity increment. -/
theorem C8_witness :
    addToCartView ([] : List Product) [] 5 1 = .error .notFound ∧
    addToCartView
      [{ id := 1, name := "A", regular_price := 1000, offer_price := none,
         stock := 5, is_active := true }] [⟨1, 3⟩] 1 3 =
      .error (.insufficientStock
        ({ id := 1, name := "A", regular_price := 1000, offer_price := none,
           stock := 5, is_active := true } : Product).stock) := by
  exact ⟨C8_addToCart.1 [] [] 5 1 rfl,
         C8_addToCart.2.1 _ _ 1 3 _ rfl (by decide) (by decide)⟩

/-- C9 witness: `8801712345678` normalizes to `01712345678`, and a
non-normalizable phone is rejected before any network call. -/
theorem C9_witness :
    normalize_phone_number (String.mk ('8' :: '8' :: '0' :: "1712345678".data)) =
      String.mk ('0' :: "1712345678".data) ∧
    createOrderService { api_key := some "k", secret_key := some "s" }
      { invoice := "ORD-1", recipient_name := "N", recipient_phone := "123",
        recipient_address := "Ad", cod_amount := 1000, recipient_email := none,
        note := none, item_description := none, total_lot := none,
        delivery_type := none }
      (.httpErr "down") = (badPhoneResponse, false) := by
  exact ⟨(C9_amended.2.1 "1712345678".data (by decide) (by decide) (by decide)).2.1,
         C9_amended.2.2 _ _ _ (by decide) (by decide)⟩
